import Mathlib

/-!
Verification of the positional file-writing abstraction of the
vectorized-vs-consolidated chunk-writing benchmark repository.

The embedding models:
* the POSIX platform handle layer (`seek_and_write`, `destroy_handle`,
  `init_handle` open flags) from the `pwrite`-based translation unit;
* the Windows platform handle layer (`seek_and_write` over overlapped
  `WriteFile`, `destroy_handle`) from the `windows.h` translation unit;
* `zarr::FileSink::write` from `file.sink.cc`;
* the benchmark driver loop from `main`;
* the vectored writer (`write_vectors`), modelled from the spec because its
  implementation file is not part of the sources.

Bytes are `Nat`; file contents are total functions from absolute byte
position to the byte stored there.  The OS write primitive is an oracle
giving, per call, the `ssize_t` return of `pwrite` (POSIX), respectively
the transferred byte count or a hard failure (Windows).  Loops are bounded:
every iteration either makes byte progress or consumes retry budget, so a
structural fuel of `length + 3` (and `4 * total + 4` for the vectored
retry loop) provably never runs out; lemmas below carry the corresponding
fuel-sufficiency hypotheses.
-/

namespace VecWrite

/-- File contents: the byte stored at each absolute position. -/
abbrev FileData := Nat → Nat

/-- The all-zeros file (fresh/empty file in the model). -/
def file0 : FileData := fun _ => 0

/-- Overwrite the range `[off, off + data.length)` of `file` with `data`. -/
def writeRange (data : List Nat) (off : Nat) (file : FileData) : FileData :=
  fun p => if off ≤ p ∧ p < off + data.length then data.getD (p - off) 0 else file p

/-- Result of one `seek_and_write`-style call.

`res` is `Except.error msg` when the C++ code throws (`IOWriteError`),
`Except.ok b` when it returns the `bool` `b`.  `written` is the number of
buffer bytes transferred to the file (the final `cur - data.data()`),
`calls` the number of OS write calls issued, `zeroCalls` the final value of
the `retries` counter (the number of OS calls that transferred zero bytes),
and `file` the resulting file contents. -/
structure WriteOutcome where
  res : Except String Bool
  written : Nat
  calls : Nat
  zeroCalls : Nat
  file : FileData

/-- POSIX retry loop of `seek_and_write` (the `while (cur < end && retries <
max_retries)` loop around `pwrite`).  `os call rem` is the `ssize_t` returned
by the `pwrite` of the `call`-th OS call when asked to write `rem` bytes; a
negative value makes the C++ code throw with the `strerror` text `errMsg
call`.  A non-negative return is clamped to the requested amount (a POSIX
write never transfers more than asked).  `i` is the cursor into the buffer,
`o` the current absolute file offset, `retries` the zero-write counter.
The fuel is structural bookkeeping only: each iteration either advances `i`
or increments `retries`, so `data.length + 3` steps always suffice. -/
def seek_and_write_loop (os : Nat → Nat → Int) (errMsg : Nat → String)
    (data : List Nat) :
    Nat → Nat → Nat → Nat → Nat → FileData → WriteOutcome
  | 0, i, _o, retries, call, file =>
      ⟨Except.ok (decide (retries < 3)), i, call, retries, file⟩
  | fuel + 1, i, o, retries, call, file =>
      if i < data.length ∧ retries < 3 then
        let rem := data.length - i
        let r := os call rem
        if r < 0 then
          ⟨Except.error ("Failed to write to file: " ++ errMsg call),
           i, call + 1, retries, file⟩
        else
          let w := min r.toNat rem
          seek_and_write_loop os errMsg data fuel (i + w) (o + w)
            (retries + if w = 0 then 1 else 0) (call + 1)
            (writeRange ((data.drop i).take w) o file)
      else
        ⟨Except.ok (decide (retries < 3)), i, call, retries, file⟩

/-- POSIX `seek_and_write(handle, offset, data)`: run the retry loop from the
start of the buffer at file offset `offset` with `retries = 0`. -/
def seek_and_write (os : Nat → Nat → Int) (errMsg : Nat → String)
    (data : List Nat) (offset : Nat) (file : FileData) : WriteOutcome :=
  seek_and_write_loop os errMsg data (data.length + 3) 0 offset 0 0 file

/-- `zarr::FileSink::write(offset, data)`: short-circuit to `true` with no
I/O when the buffer is empty or has no backing data (for a `std::vector`
both collapse to emptiness), otherwise delegate to `seek_and_write`. -/
def FileSink_write (os : Nat → Nat → Int) (errMsg : Nat → String)
    (offset : Nat) (data : List Nat) (file : FileData) : WriteOutcome :=
  if data.isEmpty then ⟨Except.ok true, 0, 0, 0, file⟩
  else seek_and_write os errMsg data offset file

/-- Windows retry loop of `seek_and_write` (overlapped `WriteFile` +
`GetOverlappedResult`).  `os call rem = none` models a hard failure of
either call (the C++ code logs and returns `false`); `some t` models a
successful call transferring `t` bytes, clamped to the request.  The
request is `(end - cur)` cast to `DWORD`, hence taken modulo `2 ^ 32`. -/
def seek_and_write_win_loop (os : Nat → Nat → Option Nat) (data : List Nat) :
    Nat → Nat → Nat → Nat → Nat → FileData → WriteOutcome
  | 0, i, _o, retries, call, file =>
      ⟨Except.ok (decide (retries < 3)), i, call, retries, file⟩
  | fuel + 1, i, o, retries, call, file =>
      if i < data.length ∧ retries < 3 then
        let rem := (data.length - i) % 2 ^ 32
        match os call rem with
        | none => ⟨Except.ok false, i, call + 1, retries, file⟩
        | some t =>
            let w := min t rem
            seek_and_write_win_loop os data fuel (i + w) (o + w)
              (retries + if w = 0 then 1 else 0) (call + 1)
              (writeRange ((data.drop i).take w) o file)
      else
        ⟨Except.ok (decide (retries < 3)), i, call, retries, file⟩

/-- Windows `seek_and_write(handle, offset, data)`. -/
def seek_and_write_win (os : Nat → Nat → Option Nat)
    (data : List Nat) (offset : Nat) (file : FileData) : WriteOutcome :=
  seek_and_write_win_loop os data (data.length + 3) 0 offset 0 0 file

/-- The ideal OS write primitive: every call transfers the full requested
amount. -/
def osFull : Nat → Nat → Int := fun _ req => (req : Int)

/-- A fixed `strerror` oracle for concrete evaluations. -/
def errMsg0 : Nat → String := fun _ => "EIO"

/-! ### Handle lifecycle: `init_handle` open modes and `destroy_handle` -/

/-- The open disposition selected by `init_handle`, reduced to the flags
that decide creation and truncation. -/
structure OpenMode where
  writeOnly : Bool
  createIfAbsent : Bool
  truncateExisting : Bool
deriving DecidableEq

/-- POSIX `init_handle` opens with `O_WRONLY | O_CREAT` and mode `0644`:
create if absent, never truncate. -/
def posixOpenMode : OpenMode := ⟨true, true, false⟩

/-- Windows `init_handle` opens with `GENERIC_WRITE` and `OPEN_ALWAYS`:
create if absent, never truncate. -/
def winOpenMode : OpenMode := ⟨true, true, false⟩

/-- Effect of opening a path on the file's contents.  `none` models an
absent file; an absent file is created empty exactly when the mode has the
create flag, and an existing file is emptied exactly when the mode has a
truncating disposition. -/
def openEffect (m : OpenMode) : Option FileData → Option FileData
  | none => if m.createIfAbsent then some file0 else none
  | some g => some (if m.truncateExisting then file0 else g)

/-- State of the heap cell holding the OS descriptor: a live `int` file
descriptor (POSIX) or `HANDLE` value (Windows, `-1` being
`INVALID_HANDLE_VALUE`), or memory already freed by a previous
`destroy_handle`. -/
inductive FdSlot where
  | live (fd : Int)
  | freed
deriving DecidableEq

/-- `INVALID_HANDLE_VALUE` is `(HANDLE)-1`. -/
def winInvalidHandle : Int := -1

/-- Observable actions of `destroy_handle`, in order. -/
inductive DestroyEvent where
  | flushEv
  | closeEv
  | freeEv
deriving DecidableEq

/-- POSIX `destroy_handle(handle)`.  The argument models the `void **`:
`none` is a null `handle` pointer — the code dereferences it unchecked
(`*handle`), which is undefined behaviour, modelled as `none`; `some none`
is a null stored descriptor pointer (`*handle == nullptr`), guarded by
`if (fd)`; `some (some s)` is a stored pointer to slot `s`, where touching
a freed slot is again undefined behaviour.  A live descriptor is `close`d
only when non-negative, and the slot is always `delete`d.  No flush is
performed. -/
def destroy_handle_posix : Option (Option FdSlot) → Option (List DestroyEvent)
  | none => none
  | some none => some []
  | some (some FdSlot.freed) => none
  | some (some (FdSlot.live fd)) =>
      some (if 0 ≤ fd then [DestroyEvent.closeEv, DestroyEvent.freeEv]
            else [DestroyEvent.freeEv])

/-- Windows `destroy_handle(handle)`: same pointer discipline as POSIX, but
a valid handle is flushed (`FlushFileBuffers`) before `CloseHandle`. -/
def destroy_handle_win : Option (Option FdSlot) → Option (List DestroyEvent)
  | none => none
  | some none => some []
  | some (some FdSlot.freed) => none
  | some (some (FdSlot.live h)) =>
      some (if h ≠ winInvalidHandle then
              [DestroyEvent.flushEv, DestroyEvent.closeEv, DestroyEvent.freeEv]
            else [DestroyEvent.freeEv])

/-! ### Vectored writer, modelled from the spec -/

/-- Total byte count of a buffer list (the sum of the `iovec` lengths). -/
def totalLen (bufs : List (List Nat)) : Nat := (bufs.map List.length).sum

/-- Modelled from the spec: after a partial gather write of `w` bytes, the
sink "recomputes which buffers are fully written, drops them, right-sizes
(truncates) the first partially-written buffer's remaining unwritten tail".
`dropBytes w bufs` is the remaining vector list. -/
def dropBytes (w : Nat) : List (List Nat) → List (List Nat)
  | [] => []
  | b :: bs => if w < b.length then b.drop w :: bs else dropBytes (w - b.length) bs

/-- The platform vector-count ceiling (`IOV_MAX`, 1024 on the reference
platforms). -/
def iovMax : Nat := 1024

/-- Partition a list into consecutive groups of at most `k` elements
(fuel-bounded; `l.length` fuel always suffices, and the fallback keeps the
concatenation intact). -/
def groupsOfAux (k : Nat) : Nat → List α → List (List α)
  | _, [] => []
  | 0, l => [l]
  | fuel + 1, a :: l => (a :: l).take k :: groupsOfAux k fuel ((a :: l).drop k)

/-- Modelled from the spec: "partition the chunk set into groups no larger
than the platform's maximum vector count". -/
def groupsOf (k : Nat) (l : List α) : List (List α) := groupsOfAux k l.length l

/-- Modelled from the spec: the per-group retry loop of the Vectored Sink.
Each iteration issues one gather write covering the whole remaining vector
list (`totalLen bufs` bytes requested); the oracle's (clamped, non-negative)
return `w` transfers the first `w` bytes of the buffers' concatenation at
the current offset; a negative return raises `IOWriteError`.  On a partial
transfer the fully-written buffers are dropped, the first partial buffer is
truncated (`dropBytes`), and the loop retries at the advanced offset,
giving up with `false` after three consecutive zero-progress attempts
(progress resets the counter).  Fuel of `4 * totalLen bufs + 4` always
suffices. -/
def gather_retry_loop (os : Nat → Nat → Int) (errMsg : Nat → String) :
    Nat → List (List Nat) → Nat → Nat → Nat → FileData → WriteOutcome
  | 0, _bufs, _o, retries, call, file =>
      ⟨Except.ok false, 0, call, retries, file⟩
  | fuel + 1, bufs, o, retries, call, file =>
      if totalLen bufs = 0 then ⟨Except.ok true, 0, call, retries, file⟩
      else if 3 ≤ retries then ⟨Except.ok false, 0, call, retries, file⟩
      else
        let rem := totalLen bufs
        let r := os call rem
        if r < 0 then
          ⟨Except.error ("Failed to write to file: " ++ errMsg call),
           0, call + 1, retries, file⟩
        else
          let w := min r.toNat rem
          gather_retry_loop os errMsg fuel (dropBytes w bufs) (o + w)
            (if w = 0 then retries + 1 else 0) (call + 1)
            (writeRange (bufs.flatten.take w) o file)

/-- Whether a call result is a normal `true` return. -/
def isOkTrue : Except String Bool → Bool
  | Except.ok true => true
  | _ => false

/-- Modelled from the spec: process the groups in order, each group issued
as one gather write (with the retry loop above) at its cumulative offset;
stop at the first group that raises or returns `false`. -/
def write_vectors_groups (os : Nat → Nat → Int) (errMsg : Nat → String) :
    List (List (List Nat)) → Nat → Nat → FileData → WriteOutcome
  | [], _o, call, file => ⟨Except.ok true, 0, call, 0, file⟩
  | g :: gs, o, call, file =>
      let out := gather_retry_loop os errMsg (4 * totalLen g + 4) g o 0 call file
      if isOkTrue out.res then
        write_vectors_groups os errMsg gs (o + totalLen g) out.calls out.file
      else out

/-- Modelled from the spec: `VectorizedFileWriter::write_vectors(chunks,
offset)` — the implementation file of the Vectored Sink is not present
under the sources (only its call site is), so this follows §4.3 of the
spec: partition into groups of at most `iovMax` buffers, then write each
group at its correct cumulative offset with the bounded retry policy. -/
def write_vectors (os : Nat → Nat → Int) (errMsg : Nat → String)
    (chunks : List (List Nat)) (offset : Nat) (file : FileData) : WriteOutcome :=
  write_vectors_groups os errMsg (groupsOf iovMax chunks) offset 0 file

/-- `consolidate_and_write` from the benchmark driver: concatenate the
chunks in order into one contiguous shard (the `memcpy` loop) and write it
through `zarr::FileSink` at the given offset (the driver uses offset 0). -/
def consolidate_and_write (os : Nat → Nat → Int) (errMsg : Nat → String)
    (chunks : List (List Nat)) (offset : Nat) (file : FileData) : WriteOutcome :=
  FileSink_write os errMsg offset chunks.flatten file

/-! ### Benchmark driver -/

/-- The chunk counts visited by `for (nchunks = 32; nchunks < 1024;
nchunks += 32)`. -/
def chunkCounts : List Nat := (List.range 31).map fun k => 32 * (k + 1)

/-- Outcome of one `kernel(nchunks, ...)` call: either both timed writes
complete (both output files exist afterwards), or an exception escapes,
with flags recording which output files had already been created when it
was thrown. -/
inductive KernelRes where
  | ok (consolidatedMs vectorizedMs : Nat)
  | err (msg : String) (createdC createdV : Bool)
deriving DecidableEq

/-- Existence of the two output files `consolidated.bin` / `vectorized.bin`. -/
structure FsState where
  consolidatedExists : Bool
  vectorizedExists : Bool
deriving DecidableEq

/-- Observable actions of one driver iteration, in order. -/
inductive DriverEvent where
  | row (nchunks consolidatedMs vectorizedMs : Nat)
  | log (msg : String)
  | removeC
  | removeV
deriving DecidableEq

/-- One iteration of the driver loop body for chunk count `n`: run
`kernel`; on an exception, log it and `continue` (no CSV row, no cleanup —
whatever files the kernel created stay behind); on success emit the CSV
row and then remove each output file if it exists. -/
def driver_iteration (kernel : Nat → KernelRes) (n : Nat) (fs : FsState) :
    List DriverEvent × FsState :=
  match kernel n with
  | KernelRes.err m cC cV =>
      ([DriverEvent.log m],
       ⟨fs.consolidatedExists || cC, fs.vectorizedExists || cV⟩)
  | KernelRes.ok c v =>
      let fs1 : FsState := ⟨true, true⟩
      ((DriverEvent.row n c v ::
          ((if fs1.consolidatedExists then [DriverEvent.removeC] else []) ++
           (if fs1.vectorizedExists then [DriverEvent.removeV] else []))),
       ⟨false, false⟩)

/-- Run the driver loop over a list of chunk counts, threading the
filesystem state and concatenating the observable events. -/
def driver_run (kernel : Nat → KernelRes) :
    List Nat → FsState → List DriverEvent × FsState
  | [], fs => ([], fs)
  | n :: ns, fs =>
      let step := driver_iteration kernel n fs
      let rest := driver_run kernel ns step.2
      (step.1 ++ rest.1, rest.2)

/-- The whole benchmark `main` loop: all chunk counts, starting with no
output files present. -/
def main_model (kernel : Nat → KernelRes) : List DriverEvent × FsState :=
  driver_run kernel chunkCounts ⟨false, false⟩

/-! ### Concrete instances for evaluation -/

/-- Transfer sequence 0,1,0,1,…: zero-byte runs never exceed length 1. -/
def os2 : Nat → Nat → Int := fun k _ => if k % 2 = 0 then 0 else 1

/-- A five-byte buffer. -/
def data5 : List Nat := [1, 2, 3, 4, 5]

/-- An OS write primitive that always reports a hard failure (POSIX). -/
def osNeg : Nat → Nat → Int := fun _ _ => -1

/-- A Windows write primitive whose calls always fail hard. -/
def osWFail : Nat → Nat → Option Nat := fun _ _ => none

/-- Benchmark kernel oracle failing only at chunk count 64. -/
def kernel0 : Nat → KernelRes := fun n =>
  if n = 64 then KernelRes.err "boom" true false else KernelRes.ok 1 2

/-- Benchmark kernel oracle failing at chunk count 32 after having created
the consolidated output file. -/
def kFail : Nat → KernelRes := fun n =>
  if n = 32 then KernelRes.err "Error: write failed" true false
  else KernelRes.ok 1 1

/-! ### Helper lemmas about `writeRange` and list indexing -/

theorem getD_drop_eq (l : List Nat) (i k : Nat) :
    (l.drop i).getD k 0 = l.getD (i + k) 0 := by
  simp [List.getD_eq_getElem?_getD, List.getElem?_drop]

theorem getD_take_eq (l : List Nat) (n k : Nat) (h : k < n) :
    (l.take n).getD k 0 = l.getD k 0 := by
  simp [List.getD_eq_getElem?_getD, List.getElem?_take, h]

theorem writeRange_nil (off : Nat) (file : FileData) (p : Nat) :
    writeRange [] off file p = file p := by
  simp only [writeRange, List.length_nil]
  rw [if_neg (by omega)]

theorem writeRange_out (data : List Nat) (off : Nat) (file : FileData) (p : Nat)
    (h : p < off ∨ off + data.length ≤ p) :
    writeRange data off file p = file p := by
  simp only [writeRange]
  rw [if_neg (by omega)]

theorem writeRange_in (data : List Nat) (off : Nat) (file : FileData) (p : Nat)
    (h1 : off ≤ p) (h2 : p < off + data.length) :
    writeRange data off file p = data.getD (p - off) 0 := by
  simp only [writeRange]
  rw [if_pos ⟨h1, h2⟩]

theorem writeRange_append (a b : List Nat) (off : Nat) (file : FileData) (p : Nat) :
    writeRange (a ++ b) off file p
      = writeRange b (off + a.length) (writeRange a off file) p := by
  by_cases h1 : off ≤ p
  · by_cases h2 : p < off + a.length
    · rw [writeRange_in _ _ _ _ h1 (by simp only [List.length_append]; omega),
        writeRange_out _ _ _ _ (Or.inl (by omega)),
        writeRange_in _ _ _ _ h1 h2,
        List.getD_append _ _ _ _ (by omega)]
    · by_cases h3 : p < off + a.length + b.length
      · rw [writeRange_in _ _ _ _ h1 (by simp only [List.length_append]; omega),
          writeRange_in _ _ _ _ (by omega) (by omega),
          List.getD_append_right _ _ _ _ (by omega)]
        congr 1
        omega
      · rw [writeRange_out _ _ _ _ (Or.inr (by simp only [List.length_append]; omega)),
          writeRange_out _ _ _ _ (Or.inr (by omega)),
          writeRange_out _ _ _ _ (Or.inr (by omega))]
  · rw [writeRange_out _ _ _ _ (Or.inl (by omega)),
      writeRange_out _ _ _ _ (Or.inl (by omega)),
      writeRange_out _ _ _ _ (Or.inl (by omega))]

theorem writeRange_take_drop (l : List Nat) (w off : Nat) (file : FileData) (p : Nat)
    (h : w ≤ l.length) :
    writeRange (l.drop w) (off + w) (writeRange (l.take w) off file) p
      = writeRange l off file p := by
  have h2 := writeRange_append (l.take w) (l.drop w) off file p
  rw [List.take_append_drop, List.length_take, Nat.min_eq_left h] at h2
  exact h2.symm

/-! ### Invariants of the POSIX retry loop -/

theorem seek_loop_spec (os : Nat → Nat → Int) (errMsg : Nat → String) (data : List Nat) :
    ∀ fuel i o retries call file,
      i ≤ data.length → retries ≤ 3 → (retries = 3 → i < data.length) →
      data.length - i + (3 - retries) ≤ fuel →
      ((seek_and_write_loop os errMsg data fuel i o retries call file).res = Except.ok true ↔
        (seek_and_write_loop os errMsg data fuel i o retries call file).written = data.length) ∧
      ((seek_and_write_loop os errMsg data fuel i o retries call file).res = Except.ok false ↔
        (seek_and_write_loop os errMsg data fuel i o retries call file).zeroCalls = 3) ∧
      i ≤ (seek_and_write_loop os errMsg data fuel i o retries call file).written ∧
      (seek_and_write_loop os errMsg data fuel i o retries call file).written ≤ data.length ∧
      retries ≤ (seek_and_write_loop os errMsg data fuel i o retries call file).zeroCalls ∧
      (seek_and_write_loop os errMsg data fuel i o retries call file).zeroCalls ≤ 3 := by
  intro fuel
  induction fuel with
  | zero =>
      intro i o retries call file h1 h2 h3 h4
      exfalso
      have h5 := h3 (by omega)
      omega
  | succ fuel ih =>
      intro i o retries call file h1 h2 h3 h4
      simp only [seek_and_write_loop]
      by_cases hc : i < data.length ∧ retries < 3
      · rw [if_pos hc]
        by_cases hr : os call (data.length - i) < 0
        · rw [if_pos hr]
          simp only []
          constructor
          · simp
            omega
          · constructor
            · simp
              omega
            · simp
              omega
        · rw [if_neg hr]
          have hw : min (os call (data.length - i)).toNat (data.length - i)
              ≤ data.length - i := Nat.min_le_right _ _
          have key := ih (i + min (os call (data.length - i)).toNat (data.length - i))
            (o + min (os call (data.length - i)).toNat (data.length - i))
            (retries + if min (os call (data.length - i)).toNat (data.length - i) = 0
              then 1 else 0)
            (call + 1)
            (writeRange ((data.drop i).take
              (min (os call (data.length - i)).toNat (data.length - i))) o file)
            (by omega)
            (by split_ifs <;> omega)
            (by split_ifs <;> omega)
            (by split_ifs <;> omega)
          refine ⟨key.1, key.2.1, ?_, key.2.2.2.1, ?_, key.2.2.2.2.2⟩
          · have k1 := key.2.2.1
            omega
          · have k2 := key.2.2.2.2.1
            split_ifs at k2 <;> omega
      · rw [if_neg hc]
        by_cases h5 : retries < 3
        · have h6 : i = data.length := by omega
          simp only [h6]
          simp [h5]
          omega
        · have h6 : retries = 3 := by omega
          have h7 := h3 h6
          simp [h6]
          omega

theorem seek_loop_frame (os : Nat → Nat → Int) (errMsg : Nat → String) (data : List Nat) :
    ∀ fuel i o retries call file p,
      (p < o ∨ o + (data.length - i) ≤ p) →
      (seek_and_write_loop os errMsg data fuel i o retries call file).file p = file p := by
  intro fuel
  induction fuel with
  | zero => intro i o retries call file p _; rfl
  | succ fuel ih =>
      intro i o retries call file p hp
      simp only [seek_and_write_loop]
      by_cases hc : i < data.length ∧ retries < 3
      · rw [if_pos hc]
        by_cases hr : os call (data.length - i) < 0
        · rw [if_pos hr]
        · rw [if_neg hr]
          have hw : min (os call (data.length - i)).toNat (data.length - i)
              ≤ data.length - i := Nat.min_le_right _ _
          rw [ih _ _ _ _ _ _ (by omega)]
          exact writeRange_out _ _ _ _ (by
            rw [List.length_take, List.length_drop, Nat.min_eq_left hw]
            omega)
      · rw [if_neg hc]

theorem seek_loop_content (os : Nat → Nat → Int) (errMsg : Nat → String) (data : List Nat) :
    ∀ fuel i o retries call file j,
      i ≤ j →
      j < (seek_and_write_loop os errMsg data fuel i o retries call file).written →
      (seek_and_write_loop os errMsg data fuel i o retries call file).file (o + (j - i))
        = data.getD j 0 := by
  intro fuel
  induction fuel with
  | zero =>
      intro i o retries call file j hij hj
      simp only [seek_and_write_loop] at hj
      exfalso
      omega
  | succ fuel ih =>
      intro i o retries call file j hij hj
      simp only [seek_and_write_loop] at hj ⊢
      by_cases hc : i < data.length ∧ retries < 3
      · rw [if_pos hc] at hj ⊢
        by_cases hr : os call (data.length - i) < 0
        · rw [if_pos hr] at hj ⊢
          exact absurd hj (by simp; omega)
        · rw [if_neg hr] at hj ⊢
          have hw : min (os call (data.length - i)).toNat (data.length - i)
              ≤ data.length - i := Nat.min_le_right _ _
          by_cases hjw : j < i + min (os call (data.length - i)).toNat (data.length - i)
          · rw [seek_loop_frame os errMsg data fuel _ _ _ _ _ _ (Or.inl (by omega))]
            rw [writeRange_in _ _ _ _ (by omega) (by
              rw [List.length_take, List.length_drop, Nat.min_eq_left hw]
              omega)]
            rw [Nat.add_sub_cancel_left, getD_take_eq _ _ _ (by omega), getD_drop_eq]
            congr 1
            omega
          · have hstep := ih (i + min (os call (data.length - i)).toNat (data.length - i))
              (o + min (os call (data.length - i)).toNat (data.length - i))
              (retries + if min (os call (data.length - i)).toNat (data.length - i) = 0
                then 1 else 0)
              (call + 1)
              (writeRange ((data.drop i).take
                (min (os call (data.length - i)).toNat (data.length - i))) o file)
              j (by omega) hj
            rw [← hstep]
            congr 1
            omega
      · rw [if_neg hc] at hj ⊢
        exact absurd hj (by simp; omega)

theorem seek_spec (os : Nat → Nat → Int) (errMsg : Nat → String) (data : List Nat)
    (offset : Nat) (file : FileData) :
    ((seek_and_write os errMsg data offset file).res = Except.ok true ↔
      (seek_and_write os errMsg data offset file).written = data.length) ∧
    ((seek_and_write os errMsg data offset file).res = Except.ok false ↔
      (seek_and_write os errMsg data offset file).zeroCalls = 3) ∧
    (seek_and_write os errMsg data offset file).written ≤ data.length ∧
    (seek_and_write os errMsg data offset file).zeroCalls ≤ 3 := by
  have h := seek_loop_spec os errMsg data (data.length + 3) 0 offset 0 0 file
    (by omega) (by omega) (by omega) (by omega)
  exact ⟨h.1, h.2.1, h.2.2.2.1, h.2.2.2.2.2⟩

theorem seek_frame (os : Nat → Nat → Int) (errMsg : Nat → String) (data : List Nat)
    (offset : Nat) (file : FileData) (p : Nat)
    (hp : p < offset ∨ offset + data.length ≤ p) :
    (seek_and_write os errMsg data offset file).file p = file p := by
  apply seek_loop_frame
  omega

theorem seek_content (os : Nat → Nat → Int) (errMsg : Nat → String) (data : List Nat)
    (offset : Nat) (file : FileData) (j : Nat)
    (hj : j < (seek_and_write os errMsg data offset file).written) :
    (seek_and_write os errMsg data offset file).file (offset + j) = data.getD j 0 := by
  have h := seek_loop_content os errMsg data (data.length + 3) 0 offset 0 0 file j
    (by omega) hj
  simpa using h

/-- A fully successful `seek_and_write` leaves the file equal to `data`
written over `[offset, offset + data.length)` and nothing else touched. -/
theorem seek_ok_file (os : Nat → Nat → Int) (errMsg : Nat → String) (data : List Nat)
    (offset : Nat) (file : FileData)
    (h : (seek_and_write os errMsg data offset file).res = Except.ok true) (p : Nat) :
    (seek_and_write os errMsg data offset file).file p
      = writeRange data offset file p := by
  by_cases hp : offset ≤ p ∧ p < offset + data.length
  · have hw : (seek_and_write os errMsg data offset file).written = data.length :=
      (seek_spec os errMsg data offset file).1.mp h
    have hc := seek_content os errMsg data offset file (p - offset) (by omega)
    rw [writeRange_in _ _ _ _ hp.1 hp.2, ← hc]
    congr 1
    omega
  · rw [writeRange_out _ _ _ _ (by omega), seek_frame _ _ _ _ _ _ (by omega)]

theorem FileSink_write_ok_file (os : Nat → Nat → Int) (errMsg : Nat → String)
    (offset : Nat) (data : List Nat) (file : FileData)
    (h : (FileSink_write os errMsg offset data file).res = Except.ok true) (p : Nat) :
    (FileSink_write os errMsg offset data file).file p
      = writeRange data offset file p := by
  by_cases hd : data.isEmpty
  · have hnil : data = [] := List.isEmpty_iff.mp hd
    simp only [FileSink_write, hd, if_pos]
    rw [hnil, writeRange_nil]
  · simp only [FileSink_write, hd, if_neg, Bool.false_eq_true, ite_false] at h ⊢
    exact seek_ok_file os errMsg data offset file h p

/-- First OS call fails hard on POSIX: `seek_and_write` raises, carrying the
`strerror` text. -/
theorem seek_first_error (os : Nat → Nat → Int) (errMsg : Nat → String)
    (data : List Nat) (offset : Nat) (file : FileData)
    (hne : data ≠ []) (h : os 0 data.length < 0) :
    (seek_and_write os errMsg data offset file).res
      = Except.error ("Failed to write to file: " ++ errMsg 0) := by
  have hlen : 0 < data.length := List.length_pos.mpr hne
  obtain ⟨fuel, hf⟩ : ∃ fuel, data.length + 3 = fuel + 1 := ⟨data.length + 2, by omega⟩
  unfold seek_and_write
  rw [hf]
  simp only [seek_and_write_loop]
  rw [if_pos ⟨by omega, by omega⟩]
  simp only [Nat.sub_zero]
  rw [if_pos h]

/-- First OS call fails hard on Windows: `seek_and_write` logs and returns
`false` instead of raising. -/
theorem seek_win_first_fail (os : Nat → Nat → Option Nat) (data : List Nat)
    (offset : Nat) (file : FileData)
    (hne : data ≠ []) (h : os 0 (data.length % 2 ^ 32) = none) :
    (seek_and_write_win os data offset file).res = Except.ok false := by
  have hlen : 0 < data.length := List.length_pos.mpr hne
  obtain ⟨fuel, hf⟩ : ∃ fuel, data.length + 3 = fuel + 1 := ⟨data.length + 2, by omega⟩
  unfold seek_and_write_win
  rw [hf]
  simp only [seek_and_write_win_loop]
  rw [if_pos ⟨by omega, by omega⟩]
  simp only [Nat.sub_zero]
  rw [h]

/-! ### Lemmas about the vectored writer -/

theorem totalLen_eq (bufs : List (List Nat)) : totalLen bufs = bufs.flatten.length := by
  rw [totalLen, List.length_flatten]

theorem dropBytes_flatten (bufs : List (List Nat)) :
    ∀ w, (dropBytes w bufs).flatten = bufs.flatten.drop w := by
  induction bufs with
  | nil => intro w; simp [dropBytes]
  | cons b bs ih =>
      intro w
      simp only [dropBytes, List.flatten_cons]
      by_cases hw : w < b.length
      · rw [if_pos hw, List.drop_append_eq_append_drop,
          Nat.sub_eq_zero_of_le (Nat.le_of_lt hw), List.drop_zero, List.flatten_cons]
      · rw [if_neg hw, ih, List.drop_append_eq_append_drop]
        have hb : List.drop w b = [] := List.drop_eq_nil_of_le (by omega)
        rw [hb, List.nil_append]

theorem totalLen_dropBytes (bufs : List (List Nat)) (w : Nat) :
    totalLen (dropBytes w bufs) = totalLen bufs - w := by
  rw [totalLen_eq, totalLen_eq, dropBytes_flatten, List.length_drop]

theorem flatten_groupsOfAux (k : Nat) :
    ∀ fuel (l : List (List Nat)), (groupsOfAux k fuel l).flatten = l := by
  intro fuel
  induction fuel with
  | zero => intro l; cases l <;> simp [groupsOfAux]
  | succ fuel ih =>
      intro l
      cases l with
      | nil => simp [groupsOfAux]
      | cons a l =>
          simp only [groupsOfAux, List.flatten_cons, ih, List.take_append_drop]

theorem flatten_groupsOf (k : Nat) (l : List (List Nat)) :
    (groupsOf k l).flatten = l :=
  flatten_groupsOfAux k l.length l

theorem isOkTrue_iff (r : Except String Bool) :
    isOkTrue r = true ↔ r = Except.ok true := by
  cases r with
  | error s => simp [isOkTrue]
  | ok b => cases b <;> simp [isOkTrue]

theorem gather_frame (os : Nat → Nat → Int) (errMsg : Nat → String) :
    ∀ fuel bufs o retries call file p,
      (p < o ∨ o + totalLen bufs ≤ p) →
      (gather_retry_loop os errMsg fuel bufs o retries call file).file p = file p := by
  intro fuel
  induction fuel with
  | zero => intro bufs o retries call file p _; rfl
  | succ fuel ih =>
      intro bufs o retries call file p hp
      simp only [gather_retry_loop]
      by_cases h0 : totalLen bufs = 0
      · rw [if_pos h0]
      · rw [if_neg h0]
        by_cases h3 : 3 ≤ retries
        · rw [if_pos h3]
        · rw [if_neg h3]
          by_cases hr : os call (totalLen bufs) < 0
          · rw [if_pos hr]
          · rw [if_neg hr]
            have hw : min (os call (totalLen bufs)).toNat (totalLen bufs)
                ≤ totalLen bufs := Nat.min_le_right _ _
            rw [ih _ _ _ _ _ _ (by rw [totalLen_dropBytes]; omega)]
            exact writeRange_out _ _ _ _ (by
              rw [List.length_take, totalLen_eq bufs] at *
              omega)

theorem gather_ok_file (os : Nat → Nat → Int) (errMsg : Nat → String) :
    ∀ fuel bufs o retries call file,
      (gather_retry_loop os errMsg fuel bufs o retries call file).res = Except.ok true →
      ∀ p, (gather_retry_loop os errMsg fuel bufs o retries call file).file p
        = writeRange bufs.flatten o file p := by
  intro fuel
  induction fuel with
  | zero =>
      intro bufs o retries call file h p
      exact absurd h (by simp [gather_retry_loop])
  | succ fuel ih =>
      intro bufs o retries call file h p
      simp only [gather_retry_loop] at h ⊢
      by_cases h0 : totalLen bufs = 0
      · rw [if_pos h0]
        have hnil : bufs.flatten = [] :=
          List.length_eq_zero.mp (by rw [← totalLen_eq]; exact h0)
        rw [hnil, writeRange_nil]
      · rw [if_neg h0] at h ⊢
        by_cases h3 : 3 ≤ retries
        · rw [if_pos h3] at h
          exact absurd h (by simp)
        · rw [if_neg h3] at h ⊢
          by_cases hr : os call (totalLen bufs) < 0
          · rw [if_pos hr] at h
            exact absurd h (by simp)
          · rw [if_neg hr] at h ⊢
            have hw : min (os call (totalLen bufs)).toNat (totalLen bufs)
                ≤ totalLen bufs := Nat.min_le_right _ _
            rw [ih _ _ _ _ _ h p, dropBytes_flatten]
            exact writeRange_take_drop _ _ _ _ _
              (le_trans hw (le_of_eq (totalLen_eq bufs)))

/-- Pointwise: `writeRange` only consults the base file at the probed
point. -/
theorem writeRange_congr_base (data : List Nat) (off : Nat) (b₁ b₂ : FileData)
    (p : Nat) (h : b₁ p = b₂ p) :
    writeRange data off b₁ p = writeRange data off b₂ p := by
  simp only [writeRange]
  split
  · rfl
  · exact h

theorem groups_ok_file (os : Nat → Nat → Int) (errMsg : Nat → String) :
    ∀ gs o call file,
      (write_vectors_groups os errMsg gs o call file).res = Except.ok true →
      ∀ p, (write_vectors_groups os errMsg gs o call file).file p
        = writeRange gs.flatten.flatten o file p := by
  intro gs
  induction gs with
  | nil =>
      intro o call file _ p
      simp only [write_vectors_groups, List.flatten_nil]
      rw [writeRange_nil]
  | cons g gs ih =>
      intro o call file h p
      simp only [write_vectors_groups] at h ⊢
      by_cases hg : isOkTrue (gather_retry_loop os errMsg (4 * totalLen g + 4)
          g o 0 call file).res = true
      · rw [if_pos hg] at h ⊢
        have hgt := (isOkTrue_iff _).mp hg
        have step := ih _ _ _ h p
        rw [step]
        have base : (gather_retry_loop os errMsg (4 * totalLen g + 4)
            g o 0 call file).file p = writeRange g.flatten o file p :=
          gather_ok_file os errMsg _ _ _ _ _ _ hgt p
        rw [writeRange_congr_base _ _ _ _ _ base]
        rw [List.flatten_cons, List.flatten_append]
        rw [writeRange_append, totalLen_eq]
      · rw [if_neg hg] at h
        exact absurd ((isOkTrue_iff _).mpr h) hg

/-- A fully successful `write_vectors` leaves the file equal to the chunk
concatenation written at `offset`, and nothing else touched. -/
theorem write_vectors_ok_file (os : Nat → Nat → Int) (errMsg : Nat → String)
    (chunks : List (List Nat)) (offset : Nat) (file : FileData)
    (h : (write_vectors os errMsg chunks offset file).res = Except.ok true) (p : Nat) :
    (write_vectors os errMsg chunks offset file).file p
      = writeRange chunks.flatten offset file p := by
  have h1 := groups_ok_file os errMsg (groupsOf iovMax chunks) offset 0 file h p
  rw [flatten_groupsOf] at h1
  exact h1

/-! ### Lemmas about the benchmark driver -/

theorem row_mem_iteration (kernel : Nat → KernelRes) (m : Nat) (fs : FsState)
    (n c v : Nat) :
    DriverEvent.row n c v ∈ (driver_iteration kernel m fs).1 ↔
      n = m ∧ kernel m = KernelRes.ok c v := by
  cases hk : kernel m with
  | err msg cC cV => simp [driver_iteration, hk]
  | ok c' v' =>
      simp only [driver_iteration, hk]
      simp [List.mem_cons, and_assoc]
      aesop

theorem row_mem_run (kernel : Nat → KernelRes) :
    ∀ (ns : List Nat) (fs : FsState) (n c v : Nat),
      DriverEvent.row n c v ∈ (driver_run kernel ns fs).1 ↔
        n ∈ ns ∧ kernel n = KernelRes.ok c v := by
  intro ns
  induction ns with
  | nil => intro fs n c v; simp [driver_run]
  | cons m ns ih =>
      intro fs n c v
      simp only [driver_run, List.mem_append, List.mem_cons]
      rw [ih, row_mem_iteration]
      constructor
      · rintro (⟨he, hk⟩ | ⟨hm, hk⟩)
        · exact ⟨Or.inl he, he ▸ hk⟩
        · exact ⟨Or.inr hm, hk⟩
      · rintro ⟨he | hm, hk⟩
        · exact Or.inl ⟨he, he ▸ hk⟩
        · exact Or.inr ⟨hm, hk⟩

theorem log_mem_run (kernel : Nat → KernelRes) :
    ∀ (ns : List Nat) (fs : FsState) (n : Nat) (msg : String) (cC cV : Bool),
      n ∈ ns → kernel n = KernelRes.err msg cC cV →
      DriverEvent.log msg ∈ (driver_run kernel ns fs).1 := by
  intro ns
  induction ns with
  | nil => intro fs n msg cC cV h; exact absurd h (List.not_mem_nil n)
  | cons m ns ih =>
      intro fs n msg cC cV hmem hk
      simp only [driver_run, List.mem_append]
      rcases List.mem_cons.mp hmem with he | hm
      · subst he
        left
        simp [driver_iteration, hk]
      · exact Or.inr (ih _ n msg cC cV hm hk)

/-! ### Claim theorems -/

/-- C1: `zarr::FileSink::write` and `seek_and_write` return `true` iff the
entire buffer was transferred to the file — no partial-success `true`, no
full-success `false` — and for an empty buffer (or one with no backing
data) `write` returns `true` immediately, issuing no OS write call. -/
theorem C1_write_true_iff_complete (os : Nat → Nat → Int) (errMsg : Nat → String)
    (data : List Nat) (offset : Nat) (file : FileData) :
    ((FileSink_write os errMsg offset data file).res = Except.ok true ↔
      (FileSink_write os errMsg offset data file).written = data.length) ∧
    ((seek_and_write os errMsg data offset file).res = Except.ok true ↔
      (seek_and_write os errMsg data offset file).written = data.length) ∧
    (FileSink_write os errMsg offset [] file).res = Except.ok true ∧
    (FileSink_write os errMsg offset [] file).calls = 0 := by
  refine ⟨?_, (seek_spec os errMsg data offset file).1, rfl, rfl⟩
  by_cases hd : data.isEmpty
  · have hnil : data = [] := List.isEmpty_iff.mp hd
    subst hnil
    simp [FileSink_write]
  · simp only [FileSink_write, hd, Bool.false_eq_true, if_false]
    exact (seek_spec os errMsg data offset file).1

/-- C2 (amended): the retry budget of `seek_and_write` is cumulative, not
consecutive: the call returns `false`, without raising, exactly when the
total number of zero-byte OS writes it made reaches 3 — a positive transfer
does not reset the counter — and whenever it returns `true` the full range
was written with fewer than 3 zero-byte attempts in total. -/
theorem C2_zero_write_budget_is_cumulative (os : Nat → Nat → Int)
    (errMsg : Nat → String) (data : List Nat) (offset : Nat) (file : FileData) :
    ((seek_and_write os errMsg data offset file).res = Except.ok false ↔
      (seek_and_write os errMsg data offset file).zeroCalls = 3) ∧
    ((seek_and_write os errMsg data offset file).res = Except.ok true →
      (seek_and_write os errMsg data offset file).written = data.length ∧
      (seek_and_write os errMsg data offset file).zeroCalls < 3) := by
  have h := seek_spec os errMsg data offset file
  refine ⟨h.2.1, fun ht => ⟨h.1.mp ht, ?_⟩⟩
  rcases Nat.lt_or_ge (seek_and_write os errMsg data offset file).zeroCalls 3 with h3 | h3
  · exact h3
  · have hz : (seek_and_write os errMsg data offset file).zeroCalls = 3 :=
      le_antisymm h.2.2.2 h3
    have hf := h.2.1.mpr hz
    rw [ht] at hf
    exact absurd hf (by simp)

/-- C2 witness: with the ideal OS primitive the two-byte write completes in
full with no zero-byte attempts. -/
theorem C2_zero_write_budget_is_cumulative_witness :
    (seek_and_write osFull errMsg0 [1, 2] 0 file0).written = 2 ∧
    (seek_and_write osFull errMsg0 [1, 2] 0 file0).zeroCalls < 3 :=
  (C2_zero_write_budget_is_cumulative osFull errMsg0 [1, 2] 0 file0).2 rfl

/-- C2 counterexample: the per-call transfers realized by `os2` on the
five-byte buffer are 0, 1, 0, 1, 0 — every zero-byte run has length 1, so
fewer than 3 consecutive calls ever transfer zero bytes — yet the code
returns `false` after the third (non-consecutive) zero-byte call, having
written only 2 of the 5 bytes; the claim as stated requires `true` with the
full range written. -/
theorem C2_cex :
    os2 0 5 = 0 ∧ os2 1 5 = 1 ∧ os2 2 4 = 0 ∧ os2 3 4 = 1 ∧ os2 4 3 = 0 ∧
    (seek_and_write os2 errMsg0 data5 0 file0).calls = 5 ∧
    (seek_and_write os2 errMsg0 data5 0 file0).res = Except.ok false ∧
    (seek_and_write os2 errMsg0 data5 0 file0).written = 2 :=
  ⟨rfl, rfl, rfl, rfl, rfl, rfl, rfl, rfl⟩

/-- C3: for every Chunk Set and offset, whenever both the Vectored Sink and
the consolidate-then-write Positional Sink path complete successfully, they
produce byte-for-byte the same file contents (the Vectored Sink is modelled
from the spec, its implementation not being among the sources). -/
theorem C3_vectored_equals_consolidated (osV osC : Nat → Nat → Int)
    (errV errC : Nat → String) (chunks : List (List Nat)) (offset : Nat)
    (file : FileData) (p : Nat)
    (hV : (write_vectors osV errV chunks offset file).res = Except.ok true)
    (hC : (consolidate_and_write osC errC chunks offset file).res = Except.ok true) :
    (write_vectors osV errV chunks offset file).file p
      = (consolidate_and_write osC errC chunks offset file).file p := by
  rw [write_vectors_ok_file osV errV chunks offset file hV p]
  exact (FileSink_write_ok_file osC errC offset chunks.flatten file hC p).symm

/-- C3 witness: a concrete chunk set written both ways at offset 0 under
the ideal OS primitive — both paths succeed and agree at a probed byte. -/
theorem C3_vectored_equals_consolidated_witness :
    (write_vectors osFull errMsg0 [[1, 2], [3]] 0 file0).res = Except.ok true ∧
    (consolidate_and_write osFull errMsg0 [[1, 2], [3]] 0 file0).res
      = Except.ok true ∧
    (write_vectors osFull errMsg0 [[1, 2], [3]] 0 file0).file 1
      = (consolidate_and_write osFull errMsg0 [[1, 2], [3]] 0 file0).file 1 :=
  ⟨rfl, rfl,
   C3_vectored_equals_consolidated osFull osFull errMsg0 errMsg0
     [[1, 2], [3]] 0 file0 1 rfl rfl⟩

/-- C4 (amended): on POSIX a hard OS write failure (negative `pwrite`
return) makes `seek_and_write` raise `IOWriteError` carrying the OS error
message; on the Windows variant a hard failure of `WriteFile` /
`GetOverlappedResult` is logged and the call returns `false` instead of
raising. -/
theorem C4_hard_failure_raise_is_posix_only :
    (∀ (os : Nat → Nat → Int) (errMsg : Nat → String) (data : List Nat)
        (offset : Nat) (file : FileData),
      data ≠ [] → os 0 data.length < 0 →
      (seek_and_write os errMsg data offset file).res
        = Except.error ("Failed to write to file: " ++ errMsg 0)) ∧
    (∀ (os : Nat → Nat → Option Nat) (data : List Nat) (offset : Nat)
        (file : FileData),
      data ≠ [] → os 0 (data.length % 2 ^ 32) = none →
      (seek_and_write_win os data offset file).res = Except.ok false) :=
  ⟨seek_first_error, seek_win_first_fail⟩

/-- C4 witness: concrete failing primitives on a three-byte buffer. -/
theorem C4_hard_failure_raise_is_posix_only_witness :
    (seek_and_write osNeg errMsg0 [1, 2, 3] 0 file0).res
      = Except.error ("Failed to write to file: " ++ errMsg0 0) ∧
    (seek_and_write_win osWFail [1, 2, 3] 0 file0).res = Except.ok false :=
  ⟨C4_hard_failure_raise_is_posix_only.1 osNeg errMsg0 [1, 2, 3] 0 file0
     (by decide) (by decide),
   C4_hard_failure_raise_is_posix_only.2 osWFail [1, 2, 3] 0 file0
     (by decide) rfl⟩

/-- C4 counterexample: on the Windows platform variant, a hard failure of
the underlying OS write call yields a `false` return, not a raised
`IOWriteError` — contradicting the claim that every platform variant
raises. -/
theorem C4_cex : (seek_and_write_win osWFail [7] 0 file0).res = Except.ok false :=
  rfl

/-- C5 (amended): destroying a Sink always releases the OS resource — every
live descriptor slot is freed, and every valid descriptor is closed — and
on the Windows variant the handle is flushed before release; the POSIX
variant releases without performing any flush. -/
theorem C5_destroy_releases_flush_windows_only (fd h : Int) :
    (0 ≤ fd → destroy_handle_posix (some (some (FdSlot.live fd)))
      = some [DestroyEvent.closeEv, DestroyEvent.freeEv]) ∧
    (h ≠ winInvalidHandle → destroy_handle_win (some (some (FdSlot.live h)))
      = some [DestroyEvent.flushEv, DestroyEvent.closeEv, DestroyEvent.freeEv]) ∧
    DestroyEvent.freeEv ∈ (destroy_handle_posix (some (some (FdSlot.live fd)))).getD [] ∧
    DestroyEvent.freeEv ∈ (destroy_handle_win (some (some (FdSlot.live h)))).getD [] ∧
    DestroyEvent.flushEv ∉ (destroy_handle_posix (some (some (FdSlot.live fd)))).getD [] := by
  refine ⟨fun hfd => by simp [destroy_handle_posix, hfd],
    fun hh => by simp [destroy_handle_win, hh], ?_, ?_, ?_⟩
  · simp only [destroy_handle_posix, Option.getD_some]
    split_ifs <;> simp
  · simp only [destroy_handle_win, Option.getD_some]
    split_ifs <;> simp
  · simp only [destroy_handle_posix, Option.getD_some]
    split_ifs <;> simp

/-- C5 witness: a concrete valid descriptor on each platform. -/
theorem C5_destroy_releases_flush_windows_only_witness :
    destroy_handle_posix (some (some (FdSlot.live 3)))
      = some [DestroyEvent.closeEv, DestroyEvent.freeEv] ∧
    destroy_handle_win (some (some (FdSlot.live 3)))
      = some [DestroyEvent.flushEv, DestroyEvent.closeEv, DestroyEvent.freeEv] :=
  ⟨(C5_destroy_releases_flush_windows_only 3 3).1 (by decide),
   (C5_destroy_releases_flush_windows_only 3 3).2.1 (by decide)⟩

/-- C5 counterexample: destroying a POSIX Sink with a live, valid
descriptor closes and frees it but performs no flush — the claimed
"best-effort flush followed by release" does not happen on this platform
variant. -/
theorem C5_cex :
    destroy_handle_posix (some (some (FdSlot.live 3)))
      = some [DestroyEvent.closeEv, DestroyEvent.freeEv] ∧
    DestroyEvent.flushEv ∉
      (destroy_handle_posix (some (some (FdSlot.live 3)))).getD [] := by
  decide

/-- C6 (amended): `destroy_handle` never raises and completes normally for
every state whose outer handle pointer is non-null and whose stored
descriptor pointer is null or points to a live (not previously freed)
slot — including invalid descriptor values; a null outer handle pointer or
an already-freed descriptor pointer is dereferenced unchecked. -/
theorem C6_destroy_safe_on_null_stored_pointer :
    (destroy_handle_posix (some none)).isSome = true ∧
    (destroy_handle_win (some none)).isSome = true ∧
    (∀ fd : Int, (destroy_handle_posix (some (some (FdSlot.live fd)))).isSome = true) ∧
    (∀ h : Int, (destroy_handle_win (some (some (FdSlot.live h)))).isSome = true) := by
  refine ⟨rfl, rfl, fun fd => ?_, fun h => ?_⟩
  · simp [destroy_handle_posix]
  · simp [destroy_handle_win]

/-- C6 counterexample: with a null outer handle pointer — one of the states
the claim covers — `destroy_handle` dereferences the null pointer on both
platform variants (no null check exists on this path, unlike in
`init_handle`/`seek_and_write`/`flush_file`), and likewise a second destroy
touches freed memory; neither completes normally. -/
theorem C6_cex :
    destroy_handle_posix none = none ∧
    destroy_handle_win none = none ∧
    destroy_handle_posix (some (some FdSlot.freed)) = none :=
  ⟨rfl, rfl, rfl⟩

/-- C7: retry-loop invariant of `seek_and_write` — the file offset advances
in lockstep with the buffer cursor, so every buffer byte that an OS write
call transfers lands at file position `offset + (its index in the buffer)`,
in order, with no position skipped. -/
theorem C7_offset_advances_with_cursor (os : Nat → Nat → Int)
    (errMsg : Nat → String) (data : List Nat) (offset : Nat) (file : FileData)
    (j : Nat) (hj : j < (seek_and_write os errMsg data offset file).written) :
    (seek_and_write os errMsg data offset file).file (offset + j)
      = data.getD j 0 :=
  seek_content os errMsg data offset file j hj

/-- C7 witness: a concrete three-byte write at offset 10. -/
theorem C7_offset_advances_with_cursor_witness :
    1 < (seek_and_write osFull errMsg0 [5, 6, 7] 10 file0).written ∧
    (seek_and_write osFull errMsg0 [5, 6, 7] 10 file0).file (10 + 1)
      = [5, 6, 7].getD 1 0 :=
  ⟨by decide,
   C7_offset_advances_with_cursor osFull errMsg0 [5, 6, 7] 10 file0 1 (by decide)⟩

/-- C8: an exception in either write path of one benchmark iteration is
caught and logged, that iteration emits no CSV row, and the driver
continues with the remaining chunk counts — a row appears for a chunk count
iff that count is in the loop range and its kernel call succeeded. -/
theorem C8_iteration_failures_are_isolated (kernel : Nat → KernelRes) (n : Nat) :
    (∀ c v, DriverEvent.row n c v ∈ (main_model kernel).1 ↔
      n ∈ chunkCounts ∧ kernel n = KernelRes.ok c v) ∧
    (∀ msg cC cV, n ∈ chunkCounts → kernel n = KernelRes.err msg cC cV →
      DriverEvent.log msg ∈ (main_model kernel).1 ∧
      ∀ c v, DriverEvent.row n c v ∉ (main_model kernel).1) := by
  constructor
  · intro c v
    exact row_mem_run kernel chunkCounts ⟨false, false⟩ n c v
  · intro msg cC cV hmem hk
    refine ⟨log_mem_run kernel chunkCounts ⟨false, false⟩ n msg cC cV hmem hk, ?_⟩
    intro c v hrow
    have := (row_mem_run kernel chunkCounts ⟨false, false⟩ n c v).mp hrow
    rw [hk] at this
    exact absurd this.2 (by simp)

/-- C8 witness: with a kernel that fails only at chunk count 64, the error
is logged, no row for 64 appears, and the run still produces the row for
chunk count 96. -/
theorem C8_iteration_failures_are_isolated_witness :
    DriverEvent.log "boom" ∈ (main_model kernel0).1 ∧
    DriverEvent.row 64 1 2 ∉ (main_model kernel0).1 ∧
    DriverEvent.row 96 1 2 ∈ (main_model kernel0).1 :=
  ⟨((C8_iteration_failures_are_isolated kernel0 64).2 "boom" true false
      (by decide) rfl).1,
   ((C8_iteration_failures_are_isolated kernel0 64).2 "boom" true false
      (by decide) rfl).2 1 2,
   ((C8_iteration_failures_are_isolated kernel0 96).1 1 2).mpr ⟨by decide, rfl⟩⟩

/-- C9 (amended): after every successful benchmark iteration both output
files are removed, each removal coming after that iteration's CSV row is
emitted, and no file exists when the next iteration begins; an iteration
whose kernel call raises performs no removal at all. -/
theorem C9_cleanup_after_successful_iterations (kernel : Nat → KernelRes)
    (n : Nat) (fs : FsState) :
    (∀ c v, kernel n = KernelRes.ok c v →
      (driver_iteration kernel n fs).1
        = [DriverEvent.row n c v, DriverEvent.removeC, DriverEvent.removeV] ∧
      (driver_iteration kernel n fs).2 = ⟨false, false⟩) ∧
    (∀ msg cC cV, kernel n = KernelRes.err msg cC cV →
      DriverEvent.removeC ∉ (driver_iteration kernel n fs).1 ∧
      DriverEvent.removeV ∉ (driver_iteration kernel n fs).1) := by
  constructor
  · intro c v hk
    simp [driver_iteration, hk]
  · intro msg cC cV hk
    simp [driver_iteration, hk]

/-- C9 witness: a concrete successful iteration emits its row and then both
removals, leaving no output file behind. -/
theorem C9_cleanup_after_successful_iterations_witness :
    (driver_iteration kernel0 32 ⟨false, false⟩).1
      = [DriverEvent.row 32 1 2, DriverEvent.removeC, DriverEvent.removeV] ∧
    (driver_iteration kernel0 32 ⟨false, false⟩).2 = ⟨false, false⟩ :=
  (C9_cleanup_after_successful_iterations kernel0 32 ⟨false, false⟩).1 1 2 rfl

/-- C9 counterexample: an iteration whose kernel raises after creating the
consolidated output file performs no removal — `continue` skips the cleanup
— so the file still exists when the next iteration begins, contradicting
the claim that both files are removed after every iteration. -/
theorem C9_cex :
    (driver_iteration kFail 32 ⟨false, false⟩).2.consolidatedExists = true ∧
    DriverEvent.removeC ∉ (driver_iteration kFail 32 ⟨false, false⟩).1 ∧
    DriverEvent.removeV ∉ (driver_iteration kFail 32 ⟨false, false⟩).1 := by
  decide

/-- C10: opening a Sink never truncates — on both platforms the open mode
creates the file only if absent and keeps existing contents — and a write
of a buffer at an offset leaves every byte outside
`[offset, offset + length)` unchanged. -/
theorem C10_open_preserves_and_write_frames (g : FileData) (os : Nat → Nat → Int)
    (errMsg : Nat → String) (data : List Nat) (offset : Nat) (file : FileData)
    (p : Nat) :
    openEffect posixOpenMode (some g) = some g ∧
    openEffect winOpenMode (some g) = some g ∧
    openEffect posixOpenMode none = some file0 ∧
    openEffect winOpenMode none = some file0 ∧
    ((p < offset ∨ offset + data.length ≤ p) →
      (FileSink_write os errMsg offset data file).file p = file p) := by
  refine ⟨rfl, rfl, rfl, rfl, fun hp => ?_⟩
  by_cases hd : data.isEmpty
  · simp [FileSink_write, hd]
  · simp only [FileSink_write, hd, Bool.false_eq_true, if_false]
    exact seek_frame os errMsg data offset file p hp

/-- C10 witness: a one-byte write at offset 5 leaves position 0 unchanged. -/
theorem C10_open_preserves_and_write_frames_witness :
    (FileSink_write osFull errMsg0 5 [9] file0).file 0 = file0 0 :=
  (C10_open_preserves_and_write_frames file0 osFull errMsg0 [9] 5 file0 0).2.2.2.2
    (by decide)

end VecWrite
